import Mathlib

/-!
Verification of the trust-resolution and signature-verification pipeline of
the traceability repository: the credential verifier, the generic resolver
(controller resolution for did:web and schema resolution with caching), the
credential issuance path, and the presentation time checks.

JavaScript strings are modelled as lists of characters; JavaScript objects
become structures with `Option` fields; external effects (the HTTPS fetch,
the WebCrypto signing and verification routines, the ajv compiler) are
modelled as explicit function parameters, so every theorem quantifies over
all possible behaviours of those collaborators.
-/

namespace Traceability

/-- JavaScript strings are modelled as lists of characters. -/
abbrev Str := List Char

/-- Turn a Lean string literal into the character-list model. -/
def str (s : String) : Str := s.data

/-- Model of JavaScript `startsWith`: `startsWith s p` is true when `p` is
an initial segment of `s`. -/
def startsWith : Str → Str → Bool
  | _, [] => true
  | [], _ :: _ => false
  | c :: cs, p :: ps => c = p && startsWith cs ps

/-- Model of JavaScript `split` with a one-character separator: adjacent
separators and an empty input produce empty segments, exactly as in JS. -/
def splitOnChar (sep : Char) : Str → List Str
  | [] => [[]]
  | c :: cs =>
    let rest := splitOnChar sep cs
    if c = sep then [] :: rest
    else (c :: rest.headD []) :: rest.tail

/-- Model of JavaScript `Array.prototype.join` with a separator string. -/
def joinSep (sep : Str) : List Str → Str
  | [] => []
  | [x] => x
  | x :: y :: ys => x ++ sep ++ joinSep sep (y :: ys)

/-- Helper for `replaceFirst`: strip `pat` from the front of the list when it
is an initial segment, returning the remainder. -/
def dropPre : Str → Str → Option Str
  | [], l => some l
  | _ :: _, [] => none
  | p :: ps, c :: cs => if c = p then dropPre ps cs else none

/-- Model of JavaScript `replace` with a plain-string pattern and the empty
replacement: only the first occurrence of `pat` is removed. -/
def replaceFirst (pat : Str) : Str → Str
  | [] => []
  | c :: cs =>
    match dropPre pat (c :: cs) with
    | some rest => rest
    | none => c :: replaceFirst pat cs

/-- First-match lookup in an association list; later writes are stored at the
front, so this realises the overwrite semantics of a JS object used as map. -/
def lookupAssoc {α : Type} : List (Str × α) → Str → Option α
  | [], _ => none
  | (k, v) :: rest, id => if k = id then some v else lookupAssoc rest id

theorem startsWith_append (p r : Str) : startsWith (p ++ r) p = true := by
  induction p with
  | nil => cases r <;> rfl
  | cons c cs ih => simp [startsWith, ih]

theorem startsWith_nil (s : Str) : startsWith s [] = true := by
  cases s <;> rfl

theorem splitOnChar_ne_nil (sep : Char) (l : Str) : splitOnChar sep l ≠ [] := by
  cases l with
  | nil => simp [splitOnChar]
  | cons c cs =>
    simp only [splitOnChar]
    split <;> simp

theorem splitOnChar_not_mem (sep : Char) (l : Str) (h : sep ∉ l) :
    splitOnChar sep l = [l] := by
  induction l with
  | nil => rfl
  | cons c cs ih =>
    simp only [List.mem_cons, not_or] at h
    simp [splitOnChar, h.1, ih h.2, Ne.symm h.1]

theorem splitOnChar_append (sep : Char) (pre rest : Str) (h : sep ∉ pre) :
    splitOnChar sep (pre ++ sep :: rest) = pre :: splitOnChar sep rest := by
  induction pre with
  | nil => simp [splitOnChar]
  | cons c cs ih =>
    simp only [List.mem_cons, not_or] at h
    simp [splitOnChar, ih h.2, Ne.symm h.1, h.1]

theorem splitOnChar_headD (sep : Char) (l : Str) :
    (splitOnChar sep l).headD [] = l.takeWhile (fun x => x ≠ sep) := by
  induction l with
  | nil => rfl
  | cons c cs ih =>
    by_cases hc : c = sep
    · simp [splitOnChar, hc, List.takeWhile]
    · simp only [splitOnChar]
      rw [if_neg hc, List.headD_cons, List.takeWhile_cons_of_pos (by simp [hc]), ih]

theorem mem_joinSep {x : Char} {sep : Str} {parts : List Str}
    (h : x ∈ joinSep sep parts) : x ∈ sep ∨ ∃ p ∈ parts, x ∈ p := by
  induction parts with
  | nil => simp [joinSep] at h
  | cons p ps ih =>
    cases ps with
    | nil =>
      simp only [joinSep] at h
      exact Or.inr ⟨p, by simp, h⟩
    | cons q qs =>
      simp only [joinSep, List.append_assoc, List.mem_append] at h
      rcases h with h | h | h
      · exact Or.inr ⟨p, by simp, h⟩
      · exact Or.inl h
      · rcases ih h with h | ⟨r, hr, hx⟩
        · exact Or.inl h
        · exact Or.inr ⟨r, by simp [hr], hx⟩

theorem splitOnChar_joinSep (sep : Char) (parts : List Str)
    (hne : parts ≠ []) (h : ∀ p ∈ parts, sep ∉ p) :
    splitOnChar sep (joinSep [sep] parts) = parts := by
  induction parts with
  | nil => exact absurd rfl hne
  | cons p ps ih =>
    cases ps with
    | nil =>
      simp only [joinSep]
      exact splitOnChar_not_mem sep p (h p (by simp))
    | cons q qs =>
      have hp : sep ∉ p := h p (by simp)
      have hrec : ∀ r ∈ q :: qs, sep ∉ r := by
        intro r hr
        exact h r (by simp [hr])
      simp only [joinSep, List.append_assoc, List.singleton_append]
      rw [splitOnChar_append sep p _ hp]
      rw [ih (by simp) hrec]

theorem dropPre_append (p l : Str) : dropPre p (p ++ l) = some l := by
  induction p with
  | nil => rfl
  | cons c cs ih => simp [dropPre, ih]

theorem replaceFirst_cons_append (c : Char) (cs l : Str) :
    replaceFirst (c :: cs) ((c :: cs) ++ l) = l := by
  have h := dropPre_append (c :: cs) l
  simp only [List.cons_append, replaceFirst]
  rw [List.cons_append] at h
  simp [h]

/-- The error taxonomy of the verification chain (spec section 7); the
source throws `Error` values whose messages the spec maps to these kinds. -/
inductive VError where
  | malformedInput
  | missingIssuer
  | issuerKeyMismatch (issuerDid kid : Str)
  | controllerNotFound (id : Str)
  | keyNotFound (id : Str)
  | keyMismatch
  | signatureInvalid
  | schemaNotFound (id : Str)
  | schemaValidation
  | unsupportedAlgorithm
deriving DecidableEq

/-- The `issuer` field of a credential payload: either a bare DID string or
an object `\x7bid: DID\x7d` whose `id` may itself be absent. -/
inductive IssuerField where
  | str (s : Str)
  | obj (id : Option Str)
deriving DecidableEq

/-- A Verifiable Credential payload as built by `issueCredential`
(src/unnamed/part_001, lines 317-331).  The `credentialSubject` is opaque
JSON passed through unchanged, modelled by a type parameter. -/
structure Credential (Subject : Type) where
  context : List Str
  type : List Str
  issuer : Option IssuerField
  credentialSubject : Subject
  validFrom : Option Str
  validUntil : Option Str
deriving DecidableEq

/-- The protected header of a signed object: algorithm and key identifier. -/
structure JoseHeader where
  alg : Str
  kid : Str
deriving DecidableEq

/-- Result of parsing a compact signed object (header and payload). -/
structure ParsedJWS (Subject : Type) where
  header : JoseHeader
  payload : Credential Subject
deriving DecidableEq

/-- A signature verifier bound to one key, as returned by the assertion set
resolver; its `verify` re-checks the signature of the full signed string. -/
structure BoundVerifier (Subject : Type) where
  verify : Str → Except VError (Credential Subject)

/-- The role-scoped key sets returned by `resolveController`, each exposing
`resolve(kid)`. -/
structure ResolvedController (Subject : Type) where
  assertion : Str → Except VError (BoundVerifier Subject)
  authentication : Str → Except VError (BoundVerifier Subject)

/-- JavaScript truthiness of the `issuer` field: absent and the empty
string are falsy, every object is truthy. -/
def issuerTruthy : Option IssuerField → Bool
  | none => false
  | some (.str s) => !s.isEmpty
  | some (.obj _) => true

/-- Issuer extraction and normalisation from
`credentialVerifierFromResolver` (src/unnamed/part_001, lines 243-255):
require a truthy `issuer`, take the bare string or the object's `id`, and
require the result to be truthy as well. -/
def extractIssuerDid (issuer : Option IssuerField) : Except VError Str :=
  if issuerTruthy issuer = false then
    .error .missingIssuer
  else
    let issuerDid : Option Str :=
      match issuer with
      | some (.str s) => some s
      | some (.obj i) => i
      | none => none
    match issuerDid with
    | some d => if d.isEmpty then .error .missingIssuer else .ok d
    | none => .error .missingIssuer

/-- The `verify` closure of `credentialVerifierFromResolver`
(src/unnamed/part_001, lines 238-278): parse, extract the issuer, enforce
the issuer/key binding on `header.kid`, then resolve the controller, the
assertion key and the signature, and optionally validate schemas.  The
parsing routine (src/encoding/jws, not under src/), the resolver and the
schema validation are explicit function parameters. -/
def credentialVerifierVerify {Subject : Type}
    (parseJWS : Str → Except VError (ParsedJWS Subject))
    (resolveCtrl : Str → Except VError (ResolvedController Subject))
    (validateCredentialSchemas : Credential Subject → Except VError Unit)
    (validateSchema : Bool) (jwsString : Str) :
    Except VError (Credential Subject) := do
  let parsed ← parseJWS jwsString
  let credential := parsed.payload
  let issuerDid ← extractIssuerDid credential.issuer
  let assertionKeyId := parsed.header.kid
  if startsWith assertionKeyId issuerDid = false then
    .error (.issuerKeyMismatch issuerDid assertionKeyId)
  else do
    let issuer ← resolveCtrl assertionKeyId
    let credentialVerifier ← issuer.assertion assertionKeyId
    let verifiedCredential ← credentialVerifier.verify jwsString
    if validateSchema then do
      let _ ← validateCredentialSchemas verifiedCredential
      pure verifiedCredential
    else
      pure verifiedCredential

/-- A private key as far as the issuance path inspects it: its algorithm
tag and its derived key identifier. -/
structure PrivateKey where
  alg : Str
  kid : Str
deriving DecidableEq

/-- Optional validity dates accepted by `issueCredential`. -/
structure IssueOptions where
  validFrom : Option Str
  validUntil : Option Str
deriving DecidableEq

/-- A produced signed object: protected header, payload and signature. -/
structure SignedObject (Subject : Type) where
  header : JoseHeader
  payload : Credential Subject
  signature : Str

/-- Modelled from the spec: `signer`/`sign` (spec section 4.3; the module
src/credential/signer is not under src/).  Signing binds the key's
algorithm and the supplied `kid` into the protected header and signs the
encoded header and payload; the curve-specific signature bytes are
modelled by the `signRaw` parameter. -/
def signWithKey {Subject : Type} (signRaw : JoseHeader → Credential Subject → Str)
    (assertionKey : PrivateKey) (payload : Credential Subject) (kid : Str) :
    SignedObject Subject :=
  let header : JoseHeader := { alg := assertionKey.alg, kid := kid }
  { header := header, payload := payload, signature := signRaw header payload }

/-- `issueCredential` (src/unnamed/part_001, lines 299-340): build the
credential with the caller-supplied types and issuer, add the optional
validity dates, and sign it with the assertion key under the key id
`issuerDid ++ "#" ++ assertionKey.kid`. -/
def issueCredential {Subject : Type}
    (signRaw : JoseHeader → Credential Subject → Str)
    (issuerDid : Str) (assertionKey : PrivateKey)
    (credentialTypes : List Str) (credentialSubjectData : Subject)
    (options : IssueOptions) : SignedObject Subject :=
  let credential : Credential Subject :=
    { context := [str "https://www.w3.org/ns/credentials/v2"]
      type := credentialTypes
      issuer := some (.str issuerDid)
      credentialSubject := credentialSubjectData
      validFrom := options.validFrom
      validUntil := options.validUntil }
  signWithKey signRaw assertionKey credential
    (issuerDid ++ str "#" ++ assertionKey.kid)

/-- A public key in JWK form as carried by a verification method. -/
structure PublicKey where
  kty : Str
  crv : Str
  alg : Str
  x : Str
  y : Str
deriving DecidableEq

/-- One entry of a controller document's `verificationMethod` array. -/
structure VerificationMethod where
  id : Str
  type : Str
  controller : Str
  publicKeyJwk : PublicKey
deriving DecidableEq

/-- A controller document; the role arrays may be absent, which the source
guards with optional chaining. -/
structure Controller where
  id : Str
  verificationMethod : Option (List VerificationMethod)
  assertionMethod : Option (List Str)
  authentication : Option (List Str)
  alsoKnownAs : Option (List Str)
deriving DecidableEq

/-- The role partition of `resolveController`
(src/examples/bun-toolkit/src/resolver/genericResolver.ts, lines 100-113):
a verification method lands in the assertion list when its id appears in
`assertionMethod` and in the authentication list when it appears in
`authentication`.  These two lists are the data from which the
role-scoped verifier sets are built (`createPublicKeyResolver` is not
under src/; the sets are modelled by the underlying key lists). -/
def partitionKeys (controller : Controller) :
    List (Str × PublicKey) × List (Str × PublicKey) :=
  match controller.verificationMethod with
  | none => ([], [])
  | some vms =>
    ( vms.filterMap (fun vm =>
        if vm.id ∈ controller.assertionMethod.getD [] then
          some (vm.id, vm.publicKeyJwk)
        else none)
    , vms.filterMap (fun vm =>
        if vm.id ∈ controller.authentication.getD [] then
          some (vm.id, vm.publicKeyJwk)
        else none) )

/-- The in-memory controller store (`controllerLookup`); writes are pushed
at the front so the first match realises overwrite semantics. -/
abbrev ControllerStore := List (Str × Controller)

/-- URL derivation for a did:web DID
(src/examples/bun-toolkit/src/resolver/genericResolver.ts, lines 70-80):
remove the first occurrence of "did:web:", split the remainder on ":";
the head is the domain and the remaining segments become path segments. -/
def didWebToUrl (did : Str) : Str :=
  let didParts := splitOnChar ':' (replaceFirst (str "did:web:") did)
  let domain := didParts.headD []
  let pathParts := didParts.tail
  if 0 < pathParts.length then
    str "https://" ++ domain ++ str "/" ++ joinSep (str "/") pathParts
      ++ str "/did.json"
  else
    str "https://" ++ domain ++ str "/.well-known/did.json"

/-- Decidable equality for `Except` results, needed to evaluate the
concrete witnesses below. -/
instance {ε α : Type} [DecidableEq ε] [DecidableEq α] :
    DecidableEq (Except ε α) := fun x y =>
  match x, y with
  | .ok a, .ok b =>
    if h : a = b then isTrue (by rw [h])
    else isFalse (fun hc => absurd (Except.ok.inj hc) h)
  | .error a, .error b =>
    if h : a = b then isTrue (by rw [h])
    else isFalse (fun hc => absurd (Except.error.inj hc) h)
  | .ok _, .error _ => isFalse (fun hc => Except.noConfusion hc)
  | .error _, .ok _ => isFalse (fun hc => Except.noConfusion hc)

/-- Outcome of one `resolveController` call: the returned role partition or
error, the controller store after the call, and the list of URLs for which
an HTTPS GET was issued during the call. -/
structure ResolveControllerResult where
  result : Except VError (List (Str × PublicKey) × List (Str × PublicKey))
  store : ControllerStore
  fetched : List Str
deriving DecidableEq

/-- `resolveController`
(src/examples/bun-toolkit/src/resolver/genericResolver.ts, lines 58-119):
look the full id up in the store; on a miss for a did:web id, strip the
fragment, derive the URL and fetch; on success cache the document under
the fragment-stripped DID; with no document available, fail.  The network
is a function from URL to the optional fetched document (`none` covers a
non-success status, a network failure and an unparseable body, none of
which cache anything). -/
def resolveController (network : Str → Option Controller)
    (store : ControllerStore) (id : Str) : ResolveControllerResult :=
  match lookupAssoc store id with
  | some controller =>
    { result := .ok (partitionKeys controller), store := store, fetched := [] }
  | none =>
    if startsWith id (str "did:web:") then
      let did := (splitOnChar '#' id).headD []
      if did.isEmpty then
        { result := .error (.controllerNotFound id), store := store
          fetched := [] }
      else
        let url := didWebToUrl did
        match network url with
        | some fetchedController =>
          { result := .ok (partitionKeys fetchedController)
            store := (did, fetchedController) :: store
            fetched := [url] }
        | none =>
          { result := .error (.controllerNotFound id), store := store
            fetched := [url] }
    else
      { result := .error (.controllerNotFound id), store := store
        fetched := [] }

/-- `addController`: unconditional overwrite of the store entry. -/
def addController (store : ControllerStore) (id : Str) (controller : Controller) :
    ControllerStore :=
  (id, controller) :: store

/-- The schema resolver state: raw schemas by id and the compiled-validator
cache.  Raw schemas and compiled validators are opaque to the source
(ajv content), modelled by type parameters. -/
structure SchemaState (S V : Type) where
  schemaLookup : List (Str × S)
  compiledSchemaCache : List (Str × V)
deriving DecidableEq

/-- Outcome of one `resolveSchema` call: the returned validator or error,
the compiled cache after the call, and the ids compiled during the call
(the call log of the ajv compile step). -/
structure ResolveSchemaResult (V : Type) where
  result : Except VError V
  cache : List (Str × V)
  compiledLog : List Str
deriving DecidableEq

/-- `resolveSchema`
(src/examples/bun-toolkit/src/resolver/genericResolver.ts, lines 121-136):
serve from the compiled cache when present; otherwise look up the raw
schema (failing when absent), compile it, cache the result and return it.
The ajv compiler is the `compile` parameter. -/
def resolveSchema {S V : Type} (compile : S → V) (st : SchemaState S V)
    (id : Str) : ResolveSchemaResult V :=
  match lookupAssoc st.compiledSchemaCache id with
  | some validator =>
    { result := .ok validator, cache := st.compiledSchemaCache
      compiledLog := [] }
  | none =>
    match lookupAssoc st.schemaLookup id with
    | none =>
      { result := .error (.schemaNotFound id), cache := st.compiledSchemaCache
        compiledLog := [] }
    | some schema =>
      let compiled := compile schema
      { result := .ok compiled, cache := (id, compiled) :: st.compiledSchemaCache
        compiledLog := [id] }

/-- `addSchema`
(src/examples/bun-toolkit/src/resolver/genericResolver.ts, lines 142-146):
store the raw schema under the id and delete any compiled cache entry for
that id. -/
def addSchema {S V : Type} (st : SchemaState S V) (id : Str) (schema : S) :
    SchemaState S V :=
  { schemaLookup := (id, schema) :: st.schemaLookup
    compiledSchemaCache := st.compiledSchemaCache.filter (fun p => p.1 != id) }

/-- Errors of the credential time checks inside `createPresentation`. -/
inductive TimeCheckError where
  | credentialExpired
  | credentialNotYetValid
deriving DecidableEq

/-- The not-before half of the check
(src/examples/bun-toolkit/src/cli/commands/credential-issue.ts, lines
283-292): `if (credential.nbf)` is JavaScript truthiness, so an absent or
zero `nbf` skips the check; otherwise reject when the `nbf` instant (in
milliseconds) is after the current wall clock. -/
def checkNbfPart (nowMs : Int) (nbf : Option Int) : Except TimeCheckError Unit :=
  match nbf with
  | some n =>
    if n ≠ 0 then
      if n * 1000 > nowMs then .error .credentialNotYetValid else .ok ()
    else .ok ()
  | none => .ok ()

/-- The per-credential time validation of `createPresentation`
(src/examples/bun-toolkit/src/cli/commands/credential-issue.ts, lines
270-292): `if (credential.exp)` is JavaScript truthiness, so an absent or
zero `exp` skips the expiration check; otherwise reject when the `exp`
instant (in milliseconds) is before the current wall clock, and then run
the not-before check. -/
def checkCredentialValidity (nowMs : Int) (exp nbf : Option Int) :
    Except TimeCheckError Unit :=
  match exp with
  | some e =>
    if e ≠ 0 then
      if e * 1000 < nowMs then .error .credentialExpired
      else checkNbfPart nowMs nbf
    else checkNbfPart nowMs nbf
  | none => checkNbfPart nowMs nbf

theorem exceptBind_ok {ε α β : Type} (a : α) (f : α → Except ε β) :
    (Except.ok a >>= f) = f a := rfl

theorem exceptBind_error {ε α β : Type} (e : ε) (f : α → Except ε β) :
    ((Except.error e : Except ε α) >>= f) = Except.error e := rfl

theorem extractIssuerDid_str_ok (d : Str) (h : d ≠ []) :
    extractIssuerDid (some (.str d)) = .ok d := by
  cases d with
  | nil => exact absurd rfl h
  | cons c cs => rfl

theorem extractIssuerDid_objId_ok (d : Str) (h : d ≠ []) :
    extractIssuerDid (some (.obj (some d))) = .ok d := by
  cases d with
  | nil => exact absurd rfl h
  | cons c cs => rfl

/-- C1: for every signed object whose payload yields an issuer DID and whose
header `kid` does not start with that DID, verification fails with the
issuer/key-binding error, for every possible resolver and signature-checking
behaviour (so regardless of cryptographic validity); and when the `kid` is
prefixed by the issuer DID, verification proceeds to controller resolution,
key resolution and signature checking. -/
theorem c1_issuer_key_binding {Subject : Type}
    (parseJWS : Str → Except VError (ParsedJWS Subject))
    (resolveCtrl : Str → Except VError (ResolvedController Subject))
    (validateCredentialSchemas : Credential Subject → Except VError Unit)
    (validateSchema : Bool) (jwsString : Str)
    (parsed : ParsedJWS Subject) (issuerDid : Str)
    (hp : parseJWS jwsString = .ok parsed)
    (hd : extractIssuerDid parsed.payload.issuer = .ok issuerDid) :
    (startsWith parsed.header.kid issuerDid = false →
      credentialVerifierVerify parseJWS resolveCtrl validateCredentialSchemas
          validateSchema jwsString
        = .error (.issuerKeyMismatch issuerDid parsed.header.kid))
    ∧ (startsWith parsed.header.kid issuerDid = true →
      credentialVerifierVerify parseJWS resolveCtrl validateCredentialSchemas
          validateSchema jwsString
        = do
          let issuer ← resolveCtrl parsed.header.kid
          let credentialVerifier ← issuer.assertion parsed.header.kid
          let verifiedCredential ← credentialVerifier.verify jwsString
          if validateSchema then do
            let _ ← validateCredentialSchemas verifiedCredential
            pure verifiedCredential
          else
            pure verifiedCredential) := by
  constructor <;> intro h <;>
    simp [credentialVerifierVerify, hp, hd, h, exceptBind_ok]

/-- Fixture header for the concrete witnesses: signed under a.com's key. -/
def sampleHeader : JoseHeader :=
  { alg := str "ES256", kid := str "did:web:a.com#key-1" }

/-- Fixture payload for the concrete witnesses, with a chosen issuer. -/
def samplePayload (issuer : Option IssuerField) : Credential Unit :=
  { context := [], type := [], issuer := issuer
    credentialSubject := (), validFrom := none, validUntil := none }

/-- Fixture parser that returns the fixture object for any input. -/
def sampleParse (issuer : Option IssuerField) :
    Str → Except VError (ParsedJWS Unit) :=
  fun _ => .ok { header := sampleHeader, payload := samplePayload issuer }

/-- Fixture resolver whose assertion verifier accepts everything, standing
for a cryptographically valid signature. -/
def sampleResolveCtrl (issuer : Option IssuerField) :
    Str → Except VError (ResolvedController Unit) :=
  fun _ => .ok
    { assertion := fun _ => .ok { verify := fun _ => .ok (samplePayload issuer) }
      authentication := fun _ => .error (.keyNotFound []) }

/-- C1 witness: a concrete credential claiming issuer did:web:b.com but
signed under kid did:web:a.com#key-1 is rejected with the binding error,
although the resolver oracle would accept the signature. -/
theorem c1_issuer_key_binding_witness :
    sampleParse (some (.str (str "did:web:b.com"))) (str "x")
      = .ok { header := sampleHeader
              payload := samplePayload (some (.str (str "did:web:b.com"))) }
    ∧ extractIssuerDid
        (samplePayload (some (.str (str "did:web:b.com")))).issuer
      = .ok (str "did:web:b.com")
    ∧ startsWith sampleHeader.kid (str "did:web:b.com") = false
    ∧ credentialVerifierVerify
        (sampleParse (some (.str (str "did:web:b.com"))))
        (sampleResolveCtrl (some (.str (str "did:web:b.com"))))
        (fun _ => .ok ()) false (str "x")
      = .error (.issuerKeyMismatch (str "did:web:b.com") sampleHeader.kid) :=
  ⟨rfl, by decide, by decide,
    (c1_issuer_key_binding
      (sampleParse (some (.str (str "did:web:b.com"))))
      (sampleResolveCtrl (some (.str (str "did:web:b.com"))))
      (fun _ => .ok ()) false (str "x") _ (str "did:web:b.com")
      rfl (by decide)).1 (by decide)⟩

/-- C7: a parsed payload whose issuer is absent, or whose issuer object has
no id, fails with the missing-issuer error for every resolver and
signature-checking behaviour (so before any controller resolution or
signature check); a truthy bare-string issuer or object id is normalised to
that DID string. -/
theorem c7_missing_issuer {Subject : Type}
    (parseJWS : Str → Except VError (ParsedJWS Subject))
    (resolveCtrl : Str → Except VError (ResolvedController Subject))
    (validateCredentialSchemas : Credential Subject → Except VError Unit)
    (validateSchema : Bool) (jwsString : Str) (parsed : ParsedJWS Subject)
    (hp : parseJWS jwsString = .ok parsed)
    (hiss : parsed.payload.issuer = none
      ∨ parsed.payload.issuer = some (.obj none)) :
    credentialVerifierVerify parseJWS resolveCtrl validateCredentialSchemas
        validateSchema jwsString
      = .error .missingIssuer
    ∧ (∀ d : Str, d ≠ [] →
        extractIssuerDid (some (.str d)) = .ok d
        ∧ extractIssuerDid (some (.obj (some d))) = .ok d) := by
  constructor
  · rcases hiss with h | h <;>
      simp [credentialVerifierVerify, hp, h, extractIssuerDid, issuerTruthy,
        exceptBind_ok, exceptBind_error]
  · intro d hd
    exact ⟨extractIssuerDid_str_ok d hd, extractIssuerDid_objId_ok d hd⟩

/-- C7 witness: a concrete payload without an issuer is rejected with the
missing-issuer error before resolution, and both issuer shapes normalise. -/
theorem c7_missing_issuer_witness :
    sampleParse none (str "x")
      = .ok { header := sampleHeader, payload := samplePayload none }
    ∧ credentialVerifierVerify (sampleParse none) (sampleResolveCtrl none)
        (fun _ => .ok ()) false (str "x")
      = .error .missingIssuer
    ∧ extractIssuerDid (some (.str (str "did:web:b.com")))
      = .ok (str "did:web:b.com") :=
  ⟨rfl,
    (c7_missing_issuer (sampleParse none) (sampleResolveCtrl none)
      (fun _ => .ok ()) false (str "x") _ rfl (Or.inl rfl)).1,
    ((c7_missing_issuer (sampleParse none) (sampleResolveCtrl none)
      (fun _ => .ok ()) false (str "x") _ rfl (Or.inl rfl)).2
      (str "did:web:b.com") (by decide)).1⟩

/-- C10: a credential issued by `issueCredential` for issuer DID `d` carries
the header kid `d ++ "#" ++ assertionKey.kid`; its payload issuer
normalises back to `d` and the verifier's binding check accepts the kid. -/
theorem c10_issued_kid_binds {Subject : Type}
    (signRaw : JoseHeader → Credential Subject → Str)
    (issuerDid : Str) (assertionKey : PrivateKey)
    (credentialTypes : List Str) (credentialSubjectData : Subject)
    (options : IssueOptions) (hne : issuerDid ≠ []) :
    (issueCredential signRaw issuerDid assertionKey credentialTypes
        credentialSubjectData options).header.kid
      = issuerDid ++ str "#" ++ assertionKey.kid
    ∧ extractIssuerDid (issueCredential signRaw issuerDid assertionKey
        credentialTypes credentialSubjectData options).payload.issuer
      = .ok issuerDid
    ∧ startsWith (issueCredential signRaw issuerDid assertionKey
        credentialTypes credentialSubjectData options).header.kid issuerDid
      = true := by
  refine ⟨rfl, extractIssuerDid_str_ok issuerDid hne, ?_⟩
  have hk : (issueCredential signRaw issuerDid assertionKey credentialTypes
      credentialSubjectData options).header.kid
      = issuerDid ++ (str "#" ++ assertionKey.kid) := by
    simp [issueCredential, signWithKey]
  rw [hk]
  exact startsWith_append issuerDid (str "#" ++ assertionKey.kid)

/-- C10 witness: a concrete issued credential has the concatenated kid and
passes the binding check for its own issuer. -/
theorem c10_issued_kid_binds_witness :
    str "did:web:a.com" ≠ []
    ∧ ((issueCredential (fun _ _ => []) (str "did:web:a.com")
          { alg := str "ES256", kid := str "key-1" }
          [str "VerifiableCredential", str "DemoCredential"] ()
          { validFrom := none, validUntil := none }).header.kid
        = str "did:web:a.com" ++ str "#" ++ str "key-1"
      ∧ extractIssuerDid (issueCredential (fun _ _ => []) (str "did:web:a.com")
          { alg := str "ES256", kid := str "key-1" }
          [str "VerifiableCredential", str "DemoCredential"] ()
          { validFrom := none, validUntil := none }).payload.issuer
        = .ok (str "did:web:a.com")
      ∧ startsWith (issueCredential (fun _ _ => []) (str "did:web:a.com")
          { alg := str "ES256", kid := str "key-1" }
          [str "VerifiableCredential", str "DemoCredential"] ()
          { validFrom := none, validUntil := none }).header.kid
          (str "did:web:a.com")
        = true) :=
  ⟨by decide,
    c10_issued_kid_binds (fun _ _ => []) (str "did:web:a.com")
      { alg := str "ES256", kid := str "key-1" }
      [str "VerifiableCredential", str "DemoCredential"] ()
      { validFrom := none, validUntil := none } (by decide)⟩

/-- C8 counterexample: `issueCredential` does not enforce the type
invariant; called with the single type "CustomCredential" it produces a
credential whose type array does not contain "VerifiableCredential" (and
has no second, more specific entry). -/
theorem c8_type_invariant_counterexample :
    ¬ (str "VerifiableCredential"
        ∈ (issueCredential (fun _ _ => ([] : Str)) (str "did:web:a.com")
            { alg := str "ES256", kid := str "key-1" }
            [str "CustomCredential"] ()
            { validFrom := none, validUntil := none }).payload.type) := by
  decide

/-- C8 amended: the type array of a credential produced by `issueCredential`
is exactly the caller-supplied `credentialTypes` list, so it contains the
base type "VerifiableCredential" plus at least one more specific type
exactly when the supplied list does; nothing in the issuance path enforces
that shape. -/
theorem c8_issued_type_is_supplied {Subject : Type}
    (signRaw : JoseHeader → Credential Subject → Str)
    (issuerDid : Str) (assertionKey : PrivateKey)
    (credentialTypes : List Str) (credentialSubjectData : Subject)
    (options : IssueOptions) :
    (issueCredential signRaw issuerDid assertionKey credentialTypes
        credentialSubjectData options).payload.type = credentialTypes := rfl

/-- C9 counterexample: a credential whose `exp` is the epoch value 0 lies in
the past of the wall clock 1700000000000 ms, yet the presentation time
check accepts it, because the JavaScript truthiness guard `if
(credential.exp)` treats a zero `exp` as absent. -/
theorem c9_expiration_counterexample :
    (0 : Int) * 1000 < 1700000000000
    ∧ checkCredentialValidity 1700000000000 (some 0) none = .ok () := by
  constructor
  · decide
  · rfl

/-- C9 amended: the presentation time checks reject every credential whose
nonzero `exp` instant is before the wall clock and every credential whose
nonzero `nbf` instant is after it (a zero value is treated as absent by
the truthiness guard and skips its check), and accept a credential whose
`exp` instant is not before the wall clock, such as `exp = now + 3600`. -/
theorem c9_time_checks (nowMs e n : Int) :
    (e ≠ 0 → e * 1000 < nowMs → ∀ nbf,
      checkCredentialValidity nowMs (some e) nbf = .error .credentialExpired)
    ∧ (n ≠ 0 → nowMs < n * 1000 →
      checkCredentialValidity nowMs none (some n) = .error .credentialNotYetValid)
    ∧ (nowMs ≤ e * 1000 → n ≠ 0 → nowMs < n * 1000 →
      checkCredentialValidity nowMs (some e) (some n) = .error .credentialNotYetValid)
    ∧ (nowMs ≤ e * 1000 →
      checkCredentialValidity nowMs (some e) none = .ok ()) := by
  refine ⟨?_, ?_, ?_, ?_⟩
  · intro he hlt nbf
    simp [checkCredentialValidity, he, hlt]
  · intro hn hgt
    simp [checkCredentialValidity, checkNbfPart, hn, hgt]
  · intro hge hn hgt
    have : ¬ e * 1000 < nowMs := not_lt.mpr hge
    by_cases he : e = 0 <;>
      simp [checkCredentialValidity, checkNbfPart, he, this, hn, hgt]
  · intro hge
    have : ¬ e * 1000 < nowMs := not_lt.mpr hge
    by_cases he : e = 0 <;>
      simp [checkCredentialValidity, checkNbfPart, he, this]

/-- C9 witness: at wall clock 1700000000000 ms, exp one second in the past
is rejected, a future nbf is rejected, and exp one hour ahead passes. -/
theorem c9_time_checks_witness :
    checkCredentialValidity 1700000000000 (some 1699999999) none
      = .error .credentialExpired
    ∧ checkCredentialValidity 1700000000000 none (some 1700000001)
      = .error .credentialNotYetValid
    ∧ checkCredentialValidity 1700000000000 (some 1700003600) none = .ok () :=
  ⟨(c9_time_checks 1700000000000 1699999999 1).1 (by decide) (by decide) none,
    (c9_time_checks 1700000000000 1699999999 1700000001).2.1 (by decide) (by decide),
    (c9_time_checks 1700000000000 1700003600 1).2.2.2 (by decide)⟩

theorem lookupAssoc_filter_self {α : Type} (l : List (Str × α)) (id : Str) :
    lookupAssoc (l.filter (fun p => p.1 != id)) id = none := by
  induction l with
  | nil => rfl
  | cons p rest ih =>
    by_cases h : p.1 = id
    · simpa [List.filter_cons, h] using ih
    · simp [List.filter_cons, h, lookupAssoc, ih]

/-- C6: `addSchema` deletes any compiled cache entry for the id and stores
the new raw schema, so the next `resolveSchema` for that id compiles the
newly supplied schema (the compile log records the recompilation). -/
theorem c6_addSchema_invalidates {S V : Type} (compile : S → V)
    (st : SchemaState S V) (id : Str) (schema : S) :
    lookupAssoc (addSchema st id schema).compiledSchemaCache id = none
    ∧ lookupAssoc (addSchema st id schema).schemaLookup id = some schema
    ∧ (resolveSchema compile (addSchema st id schema) id).result
      = .ok (compile schema)
    ∧ (resolveSchema compile (addSchema st id schema) id).compiledLog = [id] := by
  have hcache : lookupAssoc
      (st.compiledSchemaCache.filter (fun p => p.1 != id)) id = none :=
    lookupAssoc_filter_self st.compiledSchemaCache id
  refine ⟨hcache, by simp [addSchema, lookupAssoc], ?_, ?_⟩ <;>
    simp [resolveSchema, addSchema, hcache, lookupAssoc]

/-- C5: after registering a schema via `addSchema`, the first `resolveSchema`
compiles it and the second returns the identical validator from the
compiled cache without compiling again; for an id that is neither cached
nor registered, `resolveSchema` fails with the schema-not-found error. -/
theorem c5_resolveSchema_caching {S V : Type} (compile : S → V)
    (st : SchemaState S V) (id : Str) (schema : S) (stray : SchemaState S V) :
    (let st1 := addSchema st id schema
     let r1 := resolveSchema compile st1 id
     let r2 := resolveSchema compile
       { schemaLookup := st1.schemaLookup, compiledSchemaCache := r1.cache } id
     r1.result = .ok (compile schema)
     ∧ r2.result = r1.result
     ∧ r2.compiledLog = []
     ∧ r2.cache = r1.cache)
    ∧ (lookupAssoc stray.compiledSchemaCache id = none →
       lookupAssoc stray.schemaLookup id = none →
       (resolveSchema compile stray id).result = .error (.schemaNotFound id)) := by
  constructor
  · have hcache : lookupAssoc
        (st.compiledSchemaCache.filter (fun p => p.1 != id)) id = none :=
      lookupAssoc_filter_self st.compiledSchemaCache id
    have h1 : resolveSchema compile (addSchema st id schema) id
        = { result := .ok (compile schema)
            cache := (id, compile schema) ::
              st.compiledSchemaCache.filter (fun p => p.1 != id)
            compiledLog := [id] } := by
      simp [resolveSchema, addSchema, hcache, lookupAssoc]
    refine ⟨?_, ?_, ?_, ?_⟩ <;> rw [h1] <;>
      simp [resolveSchema, lookupAssoc]
  · intro h1 h2
    simp [resolveSchema, h1, h2]

/-- C5 witness: a concrete schema registered under an id resolves twice to
the same compiled validator with no second compilation, and an
unregistered id fails. -/
theorem c5_resolveSchema_caching_witness :
    (let st1 := addSchema ({ schemaLookup := [], compiledSchemaCache := [] } :
        SchemaState Nat Nat) (str "https://example.com/schema.json") 41
     let r1 := resolveSchema Nat.succ st1 (str "https://example.com/schema.json")
     let r2 := resolveSchema Nat.succ
       { schemaLookup := st1.schemaLookup, compiledSchemaCache := r1.cache }
       (str "https://example.com/schema.json")
     r1.result = .ok (Nat.succ 41)
     ∧ r2.result = r1.result
     ∧ r2.compiledLog = []
     ∧ r2.cache = r1.cache)
    ∧ (resolveSchema Nat.succ ({ schemaLookup := [], compiledSchemaCache := [] } :
        SchemaState Nat Nat) (str "https://missing.example/schema.json")).result
      = .error (.schemaNotFound (str "https://missing.example/schema.json")) :=
  ⟨(c5_resolveSchema_caching Nat.succ { schemaLookup := [], compiledSchemaCache := [] }
      (str "https://example.com/schema.json") 41
      { schemaLookup := [], compiledSchemaCache := [] }).1,
    (c5_resolveSchema_caching Nat.succ { schemaLookup := [], compiledSchemaCache := [] }
      (str "https://missing.example/schema.json") 41
      { schemaLookup := [], compiledSchemaCache := [] }).2 rfl rfl⟩

theorem replaceFirst_didweb (l : Str) :
    replaceFirst (str "did:web:") (str "did:web:" ++ l) = l := by
  have h : str "did:web:" = 'd' :: str "id:web:" := rfl
  rw [h]
  exact replaceFirst_cons_append 'd' (str "id:web:") l

theorem did_headD_not_empty (id : Str)
    (hsw : startsWith id (str "did:web:") = true) :
    ((splitOnChar '#' id).headD []).isEmpty = false := by
  cases id with
  | nil => exact absurd hsw (by decide)
  | cons c cs =>
    have h2 : startsWith (c :: cs) ('d' :: str "id:web:") = true := hsw
    simp only [startsWith, Bool.and_eq_true, decide_eq_true_eq] at h2
    rw [splitOnChar_headD, h2.1, List.takeWhile_cons_of_pos (by decide)]
    rfl

/-- C2: for a did:web key identifier (fragment included) that is not stored
locally, `resolveController` issues exactly one GET, to
`https://domain/.well-known/did.json` when the DID has no path segments
and to `https://domain/seg1/.../segN/did.json` otherwise, with each colon
after the domain mapped to one path segment joined by slashes. -/
theorem c2_did_web_fetch_url (network : Str → Option Controller)
    (store : ControllerStore) (domain : Str) (segs : List Str) (frag : Str)
    (id : Str)
    (hid : id = str "did:web:" ++ joinSep [':'] (domain :: segs) ++ '#' :: frag)
    (hdc : ':' ∉ domain) (hdh : '#' ∉ domain)
    (hsegs : ∀ s ∈ segs, ':' ∉ s ∧ '#' ∉ s)
    (hmiss : lookupAssoc store id = none) :
    (resolveController network store id).fetched
      = [if segs = [] then
           str "https://" ++ domain ++ str "/.well-known/did.json"
         else
           str "https://" ++ domain ++ str "/" ++ joinSep (str "/") segs
             ++ str "/did.json"] := by
  subst hid
  set join := joinSep [':'] (domain :: segs) with hjoin
  have hjmem : ('#' : Char) ∉ join := by
    intro hx
    rw [hjoin] at hx
    rcases mem_joinSep hx with h | ⟨p, hp, hxp⟩
    · simp at h
    · rcases List.mem_cons.mp hp with rfl | hp
      · exact hdh hxp
      · exact (hsegs p hp).2 hxp
  have hd8 : ('#' : Char) ∉ str "did:web:" ++ join := by
    intro hx
    rcases List.mem_append.mp hx with h | h
    · revert h
      decide
    · exact hjmem h
  have hsw : startsWith (str "did:web:" ++ join ++ '#' :: frag)
      (str "did:web:") = true := by
    rw [List.append_assoc]
    exact startsWith_append _ _
  have hsplit : splitOnChar '#' (str "did:web:" ++ join ++ '#' :: frag)
      = (str "did:web:" ++ join) :: splitOnChar '#' frag :=
    splitOnChar_append '#' _ frag hd8
  have hparts : splitOnChar ':' join = domain :: segs := by
    rw [hjoin]
    refine splitOnChar_joinSep ':' (domain :: segs) (by simp) ?_
    intro p hp
    rcases List.mem_cons.mp hp with rfl | hp
    · exact hdc
    · exact (hsegs p hp).1
  have hne : (str "did:web:" ++ join).isEmpty = false := rfl
  have hurl : didWebToUrl (str "did:web:" ++ join)
      = if segs = [] then
          str "https://" ++ domain ++ str "/.well-known/did.json"
        else
          str "https://" ++ domain ++ str "/" ++ joinSep (str "/") segs
            ++ str "/did.json" := by
    simp only [didWebToUrl, replaceFirst_didweb, hparts, List.headD_cons,
      List.tail_cons]
    cases segs with
    | nil => simp
    | cons a as => simp
  simp only [resolveController, hmiss, hsw, if_true, hsplit, List.headD_cons,
    hne, Bool.false_eq_true, if_false, hurl]
  cases hn : network (if segs = [] then
      str "https://" ++ domain ++ str "/.well-known/did.json"
    else
      str "https://" ++ domain ++ str "/" ++ joinSep (str "/") segs
        ++ str "/did.json") <;> simp [hn]

/-- C2 witness: resolving did:web:example.com#key-1 requests the
well-known URL and resolving did:web:example.com:org:alpha#key-1 requests
the path form. -/
theorem c2_did_web_fetch_url_witness :
    (resolveController (fun _ => none) [] (str "did:web:example.com#key-1")).fetched
      = [str "https://example.com/.well-known/did.json"]
    ∧ (resolveController (fun _ => none) []
        (str "did:web:example.com:org:alpha#key-1")).fetched
      = [str "https://example.com/org/alpha/did.json"] := by
  constructor
  · have h := c2_did_web_fetch_url (fun _ => none) [] (str "example.com") []
      (str "key-1") (str "did:web:example.com#key-1") (by decide) (by decide)
      (by decide) (by simp) rfl
    simpa using h
  · have h := c2_did_web_fetch_url (fun _ => none) [] (str "example.com")
      [str "org", str "alpha"] (str "key-1")
      (str "did:web:example.com:org:alpha#key-1") (by decide) (by decide)
      (by decide) (by decide) rfl
    simpa using h

/-- Fixture controller document served at example.com for the C3 run. -/
def exampleController : Controller :=
  { id := str "did:web:example.com", verificationMethod := none
    assertionMethod := none, authentication := none, alsoKnownAs := none }

/-- Fixture network serving the example.com well-known DID document. -/
def exampleNetwork : Str → Option Controller :=
  fun url =>
    if url = str "https://example.com/.well-known/did.json" then
      some exampleController
    else none

/-- C3: evaluation at the failing input.  The first `resolveController`
call for did:web:example.com#key-1 fetches and caches the document under
the bare DID, but the second call with the same key identifier misses the
store (the lookup uses the full fragment-bearing id) and issues the HTTPS
GET again, contradicting the claimed cache behaviour. -/
theorem c3_second_call_refetches :
    (resolveController exampleNetwork [] (str "did:web:example.com#key-1")).fetched
      = [str "https://example.com/.well-known/did.json"]
    ∧ (resolveController exampleNetwork [] (str "did:web:example.com#key-1")).store
      = [(str "did:web:example.com", exampleController)]
    ∧ lookupAssoc
        (resolveController exampleNetwork [] (str "did:web:example.com#key-1")).store
        (str "did:web:example.com#key-1") = none
    ∧ (resolveController exampleNetwork
        (resolveController exampleNetwork [] (str "did:web:example.com#key-1")).store
        (str "did:web:example.com#key-1")).fetched
      = [str "https://example.com/.well-known/did.json"] := by
  decide

/-- C4: a did:web key identifier that is not stored locally and whose fetch
fails resolves to the controller-not-found error, leaves the store
unchanged (no negative caching), and a later identical call attempts the
same fetch again. -/
theorem c4_fetch_failure_uncached (network : Str → Option Controller)
    (store : ControllerStore) (id : Str)
    (hmiss : lookupAssoc store id = none)
    (hsw : startsWith id (str "did:web:") = true)
    (hnet : network (didWebToUrl ((splitOnChar '#' id).headD [])) = none) :
    (resolveController network store id).result
      = .error (.controllerNotFound id)
    ∧ (resolveController network store id).store = store
    ∧ (resolveController network store id).fetched
      = [didWebToUrl ((splitOnChar '#' id).headD [])]
    ∧ resolveController network (resolveController network store id).store id
      = resolveController network store id := by
  have hde := did_headD_not_empty id hsw
  have hr : resolveController network store id
      = { result := .error (.controllerNotFound id), store := store
          fetched := [didWebToUrl ((splitOnChar '#' id).headD [])] } := by
    simp only [resolveController, hmiss, hsw, if_true, hde,
      Bool.false_eq_true, if_false, hnet]
  exact ⟨by rw [hr], by rw [hr], by rw [hr], by rw [hr]; exact hr⟩

/-- C4 witness: with a network that always fails, resolving
did:web:example.com#key-1 errors, leaves the empty store empty, and the
repeated call fetches the same URL again. -/
theorem c4_fetch_failure_uncached_witness :
    lookupAssoc ([] : ControllerStore) (str "did:web:example.com#key-1") = none
    ∧ startsWith (str "did:web:example.com#key-1") (str "did:web:") = true
    ∧ ((resolveController (fun _ => none) [] (str "did:web:example.com#key-1")).result
        = .error (.controllerNotFound (str "did:web:example.com#key-1"))
      ∧ (resolveController (fun _ => none) [] (str "did:web:example.com#key-1")).store
        = []
      ∧ (resolveController (fun _ => none) [] (str "did:web:example.com#key-1")).fetched
        = [didWebToUrl ((splitOnChar '#'
            (str "did:web:example.com#key-1")).headD [])]
      ∧ resolveController (fun _ => none)
          (resolveController (fun _ => none) [] (str "did:web:example.com#key-1")).store
          (str "did:web:example.com#key-1")
        = resolveController (fun _ => none) [] (str "did:web:example.com#key-1")) :=
  ⟨rfl, by decide,
    c4_fetch_failure_uncached (fun _ => none) [] (str "did:web:example.com#key-1")
      rfl (by decide) rfl⟩

end Traceability
